import Mathlib

/-!
Verification of the CurlHelpers shim layer of Kitura-net.

The repository consists of thin C functions (src/CurlHelpers.c) that forward
to the external transfer engine primitive curl_easy_setopt.  We embed the
shims faithfully: the engine itself is external to the repository, so it is
modelled abstractly as a structure deciding, per option and value, whether a
setopt call is accepted (updating the option store) or rejected with a
nonzero error code (leaving the store unchanged, as the engine documents).
Each shim is a direct translation of the corresponding C function body, and
a call trace records every engine call the shim makes, in order.
-/

set_option autoImplicit false

namespace KituraNet

/-- Option identifiers of the external transfer engine: the named constructors
are the options that CurlHelpers.c mentions by name; CURLOPT_OTHER n stands
for any other member of the closed enumeration (boolean or integer options
passed in by the caller). -/
inductive CURLoption where
  | CURLOPT_HTTPHEADER
  | CURLOPT_HEADER
  | CURLOPT_READDATA
  | CURLOPT_READFUNCTION
  | CURLOPT_WRITEDATA
  | CURLOPT_WRITEFUNCTION
  | CURLOPT_OTHER (n : Nat)
deriving DecidableEq, Repr

/-- Values passed through the variadic parameter of curl_easy_setopt, as
CurlHelpers.c uses it: long integers, header lists, C strings, data pointers
and function pointers.  Pointers are modelled as Option Nat, with none
standing for NULL. -/
inductive OptValue where
  | long (v : Int)
  | headerList (hs : List String)
  | cString (s : Option String)
  | dataPtr (p : Option Nat)
  | funcPtr (f : Option Nat)
deriving DecidableEq, Repr

/-- The option store of one session handle: each option maps to the value
most recently set for it. -/
abbrev CURLState := List (CURLoption × OptValue)

/-- Setting an option replaces any previously stored value for it. -/
def setOption : CURLState → CURLoption → OptValue → CURLState
  | [], o, v => [(o, v)]
  | (o₁, v₁) :: rest, o, v =>
      if o₁ = o then (o, v) :: rest else (o₁, v₁) :: setOption rest o v

/-- The value currently stored for an option, if any. -/
def getOption : CURLState → CURLoption → Option OptValue
  | [], _ => none
  | (o₁, v₁) :: rest, o => if o₁ = o then some v₁ else getOption rest o

/-- Result code of a successful engine call (CURLE_OK in curl.h). -/
def CURLE_OK : Nat := 0

/-- Abstract model of the external transfer engine: accept decides which
setopt calls succeed, and errCode gives the nonzero result code returned
when a call is rejected.  The engine is external to this repository; per its
documented contract a rejected setopt does not change the option. -/
structure Engine where
  accept : CURLoption → OptValue → Bool
  errCode : CURLoption → OptValue → Nat
  errCode_ne_ok : ∀ o v, accept o v = false → errCode o v ≠ CURLE_OK

/-- Engine primitive curl_easy_setopt: on acceptance it stores the value and
returns CURLE_OK; on rejection it returns the nonzero error code and leaves
the option store unchanged. -/
def curl_easy_setopt (E : Engine) (st : CURLState) (o : CURLoption) (v : OptValue) :
    Nat × CURLState :=
  if E.accept o v then (CURLE_OK, setOption st o v) else (E.errCode o v, st)

/-- Observable world of one session: the engine option store together with
the ordered list of engine calls made so far. -/
structure World where
  st : CURLState
  calls : List (CURLoption × OptValue)
deriving DecidableEq, Repr

/-- One engine call from the shim layer: runs curl_easy_setopt and appends
the call to the trace. -/
def engineCall (E : Engine) (w : World) (o : CURLoption) (v : OptValue) : Nat × World :=
  let r := curl_easy_setopt E w.st o v
  (r.1, ⟨r.2, w.calls ++ [(o, v)]⟩)

/-- Sentinel for true in CurlHelpers.h (CURL_TRUE is defined as 1). -/
def CURL_TRUE : Int := 1

/-- Sentinel for false in CurlHelpers.h (CURL_FALSE is defined as 0). -/
def CURL_FALSE : Int := 0

/-- Translation of curlHelperSetOptBool from CurlHelpers.c:
return curl_easy_setopt(curl, option, yesNo == CURL_TRUE ? 1L : 0L). -/
def curlHelperSetOptBool (E : Engine) (w : World) (option : CURLoption) (yesNo : Int) :
    Nat × World :=
  engineCall E w option (.long (if yesNo = CURL_TRUE then 1 else 0))

/-- Translation of curlHelperSetOptHeaders from CurlHelpers.c:
return curl_easy_setopt(curl, CURLOPT_HTTPHEADER, headers). -/
def curlHelperSetOptHeaders (E : Engine) (w : World) (headers : List String) :
    Nat × World :=
  engineCall E w .CURLOPT_HTTPHEADER (.headerList headers)

/-- Translation of curlHelperSetOptInt from CurlHelpers.c. -/
def curlHelperSetOptInt (E : Engine) (w : World) (option : CURLoption) (data : Int) :
    Nat × World :=
  engineCall E w option (.long data)

/-- Translation of curlHelperSetOptString from CurlHelpers.c. -/
def curlHelperSetOptString (E : Engine) (w : World) (option : CURLoption)
    (data : Option String) : Nat × World :=
  engineCall E w option (.cString data)

/-- Translation of curlHelperSetOptReadFunc from CurlHelpers.c: set
CURLOPT_READDATA; only if that returned CURLE_OK, set CURLOPT_READFUNCTION;
return the last result code obtained. -/
def curlHelperSetOptReadFunc (E : Engine) (w : World) (userData : Option Nat)
    (read_cb : Option Nat) : Nat × World :=
  let r := engineCall E w .CURLOPT_READDATA (.dataPtr userData)
  if r.1 = CURLE_OK then
    engineCall E r.2 .CURLOPT_READFUNCTION (.funcPtr read_cb)
  else r

/-- Translation of curlHelperSetOptWriteFunc from CurlHelpers.c: set
CURLOPT_HEADER to 1; if CURLE_OK, set CURLOPT_WRITEDATA; if CURLE_OK, set
CURLOPT_WRITEFUNCTION; return the last result code obtained. -/
def curlHelperSetOptWriteFunc (E : Engine) (w : World) (userData : Option Nat)
    (write_cb : Option Nat) : Nat × World :=
  let r := engineCall E w .CURLOPT_HEADER (.long 1)
  if r.1 = CURLE_OK then
    let r₂ := engineCall E r.2 .CURLOPT_WRITEDATA (.dataPtr userData)
    if r₂.1 = CURLE_OK then
      engineCall E r₂.2 .CURLOPT_WRITEFUNCTION (.funcPtr write_cb)
    else r₂
  else r

/-- Concrete engine for witnesses: accepts every setopt call. -/
def acceptAll : Engine where
  accept := fun _ _ => true
  errCode := fun _ _ => 1
  errCode_ne_ok := fun _ _ h => nomatch h

/-- Concrete engine for witnesses: rejects exactly one option, with result
code 42, and accepts every other call. -/
def rejectOnly (bad : CURLoption) : Engine where
  accept := fun o _ => decide (o ≠ bad)
  errCode := fun _ _ => 42
  errCode_ne_ok := fun _ _ _ => by simp [CURLE_OK]

/-- A fresh session world: empty option store, empty call trace. -/
def world0 : World := ⟨[], []⟩

/-! Helper lemmas about the option store. -/

theorem getOption_setOption_self (st : CURLState) (o : CURLoption) (v : OptValue) :
    getOption (setOption st o v) o = some v := by
  induction st with
  | nil => simp [setOption, getOption]
  | cons hd tl ih =>
    obtain ⟨o₁, v₁⟩ := hd
    by_cases h : o₁ = o
    · simp [setOption, getOption, h]
    · simp [setOption, getOption, h, ih]

theorem getOption_setOption_ne (st : CURLState) (o q : CURLoption) (v : OptValue)
    (h : q ≠ o) : getOption (setOption st o v) q = getOption st q := by
  induction st with
  | nil => simp [setOption, getOption, Ne.symm h]
  | cons hd tl ih =>
    obtain ⟨o₁, v₁⟩ := hd
    by_cases h₁ : o₁ = o
    · subst h₁
      simp [setOption, getOption, Ne.symm h]
    · by_cases h₂ : o₁ = q
      · subst h₂
        simp [setOption, getOption, h₁]
      · simp [setOption, getOption, h₁, h₂, ih]

theorem setOption_setOption_self (st : CURLState) (o : CURLoption) (v : OptValue) :
    setOption (setOption st o v) o v = setOption st o v := by
  induction st with
  | nil => simp [setOption]
  | cons hd tl ih =>
    obtain ⟨o₁, v₁⟩ := hd
    by_cases h : o₁ = o
    · simp [setOption, h]
    · simp [setOption, h, ih]

/-! Claim theorems. -/

/-- C1 counterexample: the claim says any nonzero non-canonical input is
passed to the engine as 1; at input 2 the shim passes 0, not 1. -/
theorem C1_counterexample :
    (curlHelperSetOptBool acceptAll world0 (.CURLOPT_OTHER 64) 2).2.calls
      = [(.CURLOPT_OTHER 64, .long 0)]
  ∧ OptValue.long 0 ≠ OptValue.long 1 := by
  constructor
  · rfl
  · decide

/-- C1 (amended): curlHelperSetOptBool compares the input to CURL_TRUE = 1
and passes to the engine exactly 1 when the input equals 1, and exactly 0
for every other input value; nonzero non-canonical inputs are demoted to 0,
never promoted to 1. -/
theorem C1_bool_normalization (E : Engine) (w : World) (o : CURLoption) (yesNo : Int) :
    (curlHelperSetOptBool E w o yesNo).2.calls
      = w.calls ++ [(o, .long (if yesNo = CURL_TRUE then 1 else 0))] := rfl

/-- C9: curlHelperSetOptBool passes exactly one of the two canonical values
0 or 1 to the engine, and every input other than exactly CURL_TRUE = 1,
including nonzero values, is passed as the disabled encoding 0. -/
theorem C9_bool_canonical (E : Engine) (w : World) (o : CURLoption) (yesNo : Int) :
    ((curlHelperSetOptBool E w o yesNo).2.calls = w.calls ++ [(o, .long 0)]
      ∨ (curlHelperSetOptBool E w o yesNo).2.calls = w.calls ++ [(o, .long 1)])
  ∧ (yesNo ≠ CURL_TRUE →
      (curlHelperSetOptBool E w o yesNo).2.calls = w.calls ++ [(o, .long 0)]) := by
  constructor
  · by_cases h : yesNo = CURL_TRUE
    · right
      simp [curlHelperSetOptBool, engineCall, h]
    · left
      simp [curlHelperSetOptBool, engineCall, h]
  · intro h
    simp [curlHelperSetOptBool, engineCall, h]

/-- C9 witness: at the nonzero non-canonical input -1 the engine call passes
the disabled encoding 0. -/
theorem C9_witness :
    (-1 : Int) ≠ CURL_TRUE
  ∧ (curlHelperSetOptBool acceptAll world0 (.CURLOPT_OTHER 3) (-1)).2.calls
      = world0.calls ++ [(.CURLOPT_OTHER 3, .long 0)] :=
  ⟨by decide,
   (C9_bool_canonical acceptAll world0 (.CURLOPT_OTHER 3) (-1)).2 (by decide)⟩

/-- C2: curlHelperSetOptWriteFunc makes its engine calls in the order
enable header-inclusion, bind context, bind function; when a step is
rejected the remaining steps are not performed and the result code of the
failing step is returned to the caller unchanged. -/
theorem C2_write_sequencing (E : Engine) (w : World) (u f : Option Nat) :
    (E.accept .CURLOPT_HEADER (.long 1) = false →
       curlHelperSetOptWriteFunc E w u f
         = (E.errCode .CURLOPT_HEADER (.long 1),
            ⟨w.st, w.calls ++ [(.CURLOPT_HEADER, .long 1)]⟩))
  ∧ (E.accept .CURLOPT_HEADER (.long 1) = true →
     E.accept .CURLOPT_WRITEDATA (.dataPtr u) = false →
       curlHelperSetOptWriteFunc E w u f
         = (E.errCode .CURLOPT_WRITEDATA (.dataPtr u),
            ⟨setOption w.st .CURLOPT_HEADER (.long 1),
             w.calls ++ [(.CURLOPT_HEADER, .long 1), (.CURLOPT_WRITEDATA, .dataPtr u)]⟩))
  ∧ (E.accept .CURLOPT_HEADER (.long 1) = true →
     E.accept .CURLOPT_WRITEDATA (.dataPtr u) = true →
       (curlHelperSetOptWriteFunc E w u f).2.calls
         = w.calls ++ [(.CURLOPT_HEADER, .long 1), (.CURLOPT_WRITEDATA, .dataPtr u),
                       (.CURLOPT_WRITEFUNCTION, .funcPtr f)]
     ∧ (E.accept .CURLOPT_WRITEFUNCTION (.funcPtr f) = false →
          (curlHelperSetOptWriteFunc E w u f).1
            = E.errCode .CURLOPT_WRITEFUNCTION (.funcPtr f))) := by
  refine ⟨?_, ?_, ?_⟩
  · intro h₁
    simp [curlHelperSetOptWriteFunc, engineCall, curl_easy_setopt, h₁,
      E.errCode_ne_ok _ _ h₁]
  · intro h₁ h₂
    have hne : E.errCode .CURLOPT_WRITEDATA (.dataPtr u) ≠ 0 := E.errCode_ne_ok _ _ h₂
    simp [curlHelperSetOptWriteFunc, engineCall, curl_easy_setopt, h₁, h₂, CURLE_OK, hne]
  · intro h₁ h₂
    by_cases h₃ : E.accept .CURLOPT_WRITEFUNCTION (.funcPtr f)
    · simp [curlHelperSetOptWriteFunc, engineCall, curl_easy_setopt, h₁, h₂, h₃, CURLE_OK]
    · simp only [Bool.not_eq_true] at h₃
      simp [curlHelperSetOptWriteFunc, engineCall, curl_easy_setopt, h₁, h₂, h₃, CURLE_OK]

/-- C2 witness: with an engine that rejects only the context option, the
operation stops after the second call and returns its result code 42. -/
theorem C2_witness :
    curlHelperSetOptWriteFunc (rejectOnly .CURLOPT_WRITEDATA) world0 (some 3) (some 4)
      = (42, ⟨setOption world0.st .CURLOPT_HEADER (.long 1),
              world0.calls ++ [(.CURLOPT_HEADER, .long 1),
                               (.CURLOPT_WRITEDATA, .dataPtr (some 3))]⟩) :=
  (C2_write_sequencing (rejectOnly .CURLOPT_WRITEDATA) world0 (some 3) (some 4)).2.1
    (by decide) (by decide)

/-- C3: when curlHelperSetOptReadFunc succeeds in binding the context and
the subsequent function binding is rejected, the failing result code is
returned, it is non-success, and the session is left in a partial state:
the context is bound to the given pointer while the read function is
unchanged from before the call. -/
theorem C3_read_partial_state (E : Engine) (w : World) (u f : Option Nat)
    (h₁ : E.accept .CURLOPT_READDATA (.dataPtr u) = true)
    (h₂ : E.accept .CURLOPT_READFUNCTION (.funcPtr f) = false) :
    (curlHelperSetOptReadFunc E w u f).1 = E.errCode .CURLOPT_READFUNCTION (.funcPtr f)
  ∧ (curlHelperSetOptReadFunc E w u f).1 ≠ CURLE_OK
  ∧ getOption (curlHelperSetOptReadFunc E w u f).2.st .CURLOPT_READDATA
      = some (.dataPtr u)
  ∧ getOption (curlHelperSetOptReadFunc E w u f).2.st .CURLOPT_READFUNCTION
      = getOption w.st .CURLOPT_READFUNCTION := by
  have hne : E.errCode .CURLOPT_READFUNCTION (.funcPtr f) ≠ 0 := E.errCode_ne_ok _ _ h₂
  have hframe := getOption_setOption_ne w.st .CURLOPT_READDATA .CURLOPT_READFUNCTION
    (.dataPtr u) (by decide)
  refine ⟨?_, ?_, ?_, ?_⟩ <;>
    simp [curlHelperSetOptReadFunc, engineCall, curl_easy_setopt, h₁, h₂, CURLE_OK, hne,
      getOption_setOption_self, hframe]

/-- C3 witness: an engine that rejects only the read-function option shows
the partial state at a concrete input. -/
theorem C3_witness :
    (rejectOnly .CURLOPT_READFUNCTION).accept .CURLOPT_READDATA (.dataPtr (some 7)) = true
  ∧ (rejectOnly .CURLOPT_READFUNCTION).accept .CURLOPT_READFUNCTION (.funcPtr (some 9)) = false
  ∧ (curlHelperSetOptReadFunc (rejectOnly .CURLOPT_READFUNCTION) world0 (some 7) (some 9)).1
      ≠ CURLE_OK
  ∧ getOption (curlHelperSetOptReadFunc (rejectOnly .CURLOPT_READFUNCTION) world0
        (some 7) (some 9)).2.st .CURLOPT_READDATA = some (.dataPtr (some 7)) :=
  ⟨by decide, by decide,
   (C3_read_partial_state (rejectOnly .CURLOPT_READFUNCTION) world0 (some 7) (some 9)
      (by decide) (by decide)).2.1,
   (C3_read_partial_state (rejectOnly .CURLOPT_READFUNCTION) world0 (some 7) (some 9)
      (by decide) (by decide)).2.2.1⟩

/-- C4: a call to curlHelperSetOptWriteFunc that returns success leaves the
header-inclusion option CURLOPT_HEADER set to 1 in the session, whatever the
context and function arguments were. -/
theorem C4_header_side_effect (E : Engine) (w : World) (u f : Option Nat)
    (h : (curlHelperSetOptWriteFunc E w u f).1 = CURLE_OK) :
    getOption (curlHelperSetOptWriteFunc E w u f).2.st .CURLOPT_HEADER
      = some (.long 1) := by
  by_cases h₁ : E.accept .CURLOPT_HEADER (.long 1)
  · by_cases h₂ : E.accept .CURLOPT_WRITEDATA (.dataPtr u)
    · by_cases h₃ : E.accept .CURLOPT_WRITEFUNCTION (.funcPtr f)
      · simp [curlHelperSetOptWriteFunc, engineCall, curl_easy_setopt, h₁, h₂, h₃,
          CURLE_OK, getOption_setOption_self,
          getOption_setOption_ne _ .CURLOPT_WRITEDATA .CURLOPT_HEADER (.dataPtr u)
            (by decide),
          getOption_setOption_ne _ .CURLOPT_WRITEFUNCTION .CURLOPT_HEADER (.funcPtr f)
            (by decide)]
      · simp only [Bool.not_eq_true] at h₃
        have hne : E.errCode .CURLOPT_WRITEFUNCTION (.funcPtr f) ≠ 0 :=
          E.errCode_ne_ok _ _ h₃
        simp [curlHelperSetOptWriteFunc, engineCall, curl_easy_setopt, h₁, h₂, h₃,
          CURLE_OK, hne] at h
    · simp only [Bool.not_eq_true] at h₂
      have hne : E.errCode .CURLOPT_WRITEDATA (.dataPtr u) ≠ 0 := E.errCode_ne_ok _ _ h₂
      simp [curlHelperSetOptWriteFunc, engineCall, curl_easy_setopt, h₁, h₂,
        CURLE_OK, hne] at h
  · simp only [Bool.not_eq_true] at h₁
    have hne : E.errCode .CURLOPT_HEADER (.long 1) ≠ 0 := E.errCode_ne_ok _ _ h₁
    simp [curlHelperSetOptWriteFunc, engineCall, curl_easy_setopt, h₁, CURLE_OK, hne] at h

/-- C4 witness: with the all-accepting engine a successful registration
leaves CURLOPT_HEADER at 1. -/
theorem C4_witness :
    (curlHelperSetOptWriteFunc acceptAll world0 (some 1) (some 2)).1 = CURLE_OK
  ∧ getOption (curlHelperSetOptWriteFunc acceptAll world0 (some 1) (some 2)).2.st
      .CURLOPT_HEADER = some (.long 1) :=
  ⟨by decide, C4_header_side_effect acceptAll world0 (some 1) (some 2) (by decide)⟩

/-- C5: two successive successful curlHelperSetOptHeaders calls leave the
session holding exactly the second header list; the first list is replaced
entirely, with no merging. -/
theorem C5_headers_replace (E : Engine) (w : World) (H₁ H₂ : List String)
    (h₁ : (curlHelperSetOptHeaders E w H₁).1 = CURLE_OK)
    (h₂ : (curlHelperSetOptHeaders E (curlHelperSetOptHeaders E w H₁).2 H₂).1 = CURLE_OK) :
    getOption (curlHelperSetOptHeaders E (curlHelperSetOptHeaders E w H₁).2 H₂).2.st
      .CURLOPT_HTTPHEADER = some (.headerList H₂) := by
  by_cases ha : E.accept .CURLOPT_HTTPHEADER (.headerList H₂)
  · simp [curlHelperSetOptHeaders, engineCall, curl_easy_setopt, ha,
      getOption_setOption_self]
  · simp only [Bool.not_eq_true] at ha
    have hne : E.errCode .CURLOPT_HTTPHEADER (.headerList H₂) ≠ 0 := E.errCode_ne_ok _ _ ha
    simp [curlHelperSetOptHeaders, engineCall, curl_easy_setopt, ha, CURLE_OK, hne] at h₂

/-- C5 witness: two concrete header lists, the second of which fully
replaces the first. -/
theorem C5_witness :
    (curlHelperSetOptHeaders acceptAll world0 ["X-A: 1"]).1 = CURLE_OK
  ∧ (curlHelperSetOptHeaders acceptAll
        (curlHelperSetOptHeaders acceptAll world0 ["X-A: 1"]).2 ["X-B: 2"]).1 = CURLE_OK
  ∧ getOption (curlHelperSetOptHeaders acceptAll
        (curlHelperSetOptHeaders acceptAll world0 ["X-A: 1"]).2 ["X-B: 2"]).2.st
        .CURLOPT_HTTPHEADER = some (.headerList ["X-B: 2"]) :=
  ⟨by decide, by decide,
   C5_headers_replace acceptAll world0 ["X-A: 1"] ["X-B: 2"] (by decide) (by decide)⟩

/-- C6: a successful curlHelperSetOptBool with the canonical sentinel
CURL_TRUE = 1 leaves the engine holding the enabled encoding 1 for the
option, and a successful call with CURL_FALSE = 0 leaves it holding the
disabled encoding 0. -/
theorem C6_flag_encodings (E : Engine) (w : World) (o : CURLoption)
    (ht : (curlHelperSetOptBool E w o CURL_TRUE).1 = CURLE_OK)
    (hf : (curlHelperSetOptBool E w o CURL_FALSE).1 = CURLE_OK) :
    getOption (curlHelperSetOptBool E w o CURL_TRUE).2.st o = some (.long 1)
  ∧ getOption (curlHelperSetOptBool E w o CURL_FALSE).2.st o = some (.long 0) := by
  constructor
  · by_cases ha : E.accept o (.long 1)
    · simp [curlHelperSetOptBool, engineCall, curl_easy_setopt, CURL_TRUE, ha,
        getOption_setOption_self]
    · simp only [Bool.not_eq_true] at ha
      have hne : E.errCode o (.long 1) ≠ 0 := E.errCode_ne_ok _ _ ha
      simp [curlHelperSetOptBool, engineCall, curl_easy_setopt, CURL_TRUE, CURLE_OK,
        ha, hne] at ht
  · by_cases ha : E.accept o (.long 0)
    · simp [curlHelperSetOptBool, engineCall, curl_easy_setopt, CURL_FALSE, CURL_TRUE,
        ha, getOption_setOption_self]
    · simp only [Bool.not_eq_true] at ha
      have hne : E.errCode o (.long 0) ≠ 0 := E.errCode_ne_ok _ _ ha
      simp [curlHelperSetOptBool, engineCall, curl_easy_setopt, CURL_FALSE, CURL_TRUE,
        CURLE_OK, ha, hne] at hf

/-- C6 witness: the two sentinel inputs at a concrete option. -/
theorem C6_witness :
    (curlHelperSetOptBool acceptAll world0 (.CURLOPT_OTHER 0) CURL_TRUE).1 = CURLE_OK
  ∧ (curlHelperSetOptBool acceptAll world0 (.CURLOPT_OTHER 0) CURL_FALSE).1 = CURLE_OK
  ∧ getOption (curlHelperSetOptBool acceptAll world0 (.CURLOPT_OTHER 0) CURL_TRUE).2.st
      (.CURLOPT_OTHER 0) = some (.long 1) :=
  ⟨by decide, by decide,
   (C6_flag_encodings acceptAll world0 (.CURLOPT_OTHER 0) (by decide) (by decide)).1⟩

/-- C7 counterexample: the claim says a null function reference either makes
the operation fail before the context is bound or yields a non-success
result in all cases.  With an engine that accepts both calls (the real
engine accepts a null read function, resetting it to its default), the shim
returns the success code, and its first engine call is the context binding,
performed before the function binding is attempted. -/
theorem C7_counterexample :
    (curlHelperSetOptReadFunc acceptAll world0 (some 5) none).1 = CURLE_OK
  ∧ (curlHelperSetOptReadFunc acceptAll world0 (some 5) none).2.calls
      = [(.CURLOPT_READDATA, .dataPtr (some 5)),
         (.CURLOPT_READFUNCTION, .funcPtr none)] := by
  constructor
  · rfl
  · rfl

/-- C7 (amended): curlHelperSetOptReadFunc performs no validation of the
function reference.  With a null function it still attempts the context
binding first: its first engine call past the prior trace is the
CURLOPT_READDATA call.  When the engine accepts both calls, the operation
returns the success code and leaves the null function installed. -/
theorem C7_no_null_check (E : Engine) (w : World) (u : Option Nat) :
    (∃ rest, (curlHelperSetOptReadFunc E w u none).2.calls
        = w.calls ++ (.CURLOPT_READDATA, .dataPtr u) :: rest)
  ∧ (E.accept .CURLOPT_READDATA (.dataPtr u) = true →
     E.accept .CURLOPT_READFUNCTION (.funcPtr none) = true →
       (curlHelperSetOptReadFunc E w u none).1 = CURLE_OK
     ∧ getOption (curlHelperSetOptReadFunc E w u none).2.st .CURLOPT_READFUNCTION
         = some (.funcPtr none)) := by
  constructor
  · by_cases h₁ : E.accept .CURLOPT_READDATA (.dataPtr u)
    · by_cases h₂ : E.accept .CURLOPT_READFUNCTION (.funcPtr none)
      · exact ⟨[(.CURLOPT_READFUNCTION, .funcPtr none)],
          by simp [curlHelperSetOptReadFunc, engineCall, curl_easy_setopt, h₁, h₂,
            CURLE_OK]⟩
      · simp only [Bool.not_eq_true] at h₂
        exact ⟨[(.CURLOPT_READFUNCTION, .funcPtr none)],
          by simp [curlHelperSetOptReadFunc, engineCall, curl_easy_setopt, h₁, h₂,
            CURLE_OK]⟩
    · simp only [Bool.not_eq_true] at h₁
      have hne : E.errCode .CURLOPT_READDATA (.dataPtr u) ≠ 0 := E.errCode_ne_ok _ _ h₁
      exact ⟨[], by simp [curlHelperSetOptReadFunc, engineCall, curl_easy_setopt, h₁,
        CURLE_OK, hne]⟩
  · intro h₁ h₂
    constructor
    · simp [curlHelperSetOptReadFunc, engineCall, curl_easy_setopt, h₁, h₂, CURLE_OK]
    · simp [curlHelperSetOptReadFunc, engineCall, curl_easy_setopt, h₁, h₂, CURLE_OK,
        getOption_setOption_self]

/-- C7 (amended) witness: the all-accepting engine with a concrete context
pointer and the null function. -/
theorem C7_witness :
    acceptAll.accept .CURLOPT_READDATA (.dataPtr (some 11)) = true
  ∧ acceptAll.accept .CURLOPT_READFUNCTION (.funcPtr none) = true
  ∧ getOption (curlHelperSetOptReadFunc acceptAll world0 (some 11) none).2.st
      .CURLOPT_READFUNCTION = some (.funcPtr none) :=
  ⟨by decide, by decide,
   ((C7_no_null_check acceptAll world0 (some 11)).2 (by decide) (by decide)).2⟩

/-- C8: calling curlHelperSetOptBool twice in succession with the same
option and value leaves the engine option store in the same state as
calling it once. -/
theorem C8_flag_idempotent (E : Engine) (w : World) (o : CURLoption) (v : Int) :
    (curlHelperSetOptBool E (curlHelperSetOptBool E w o v).2 o v).2.st
      = (curlHelperSetOptBool E w o v).2.st := by
  by_cases ha : E.accept o (.long (if v = CURL_TRUE then 1 else 0))
  · simp [curlHelperSetOptBool, engineCall, curl_easy_setopt, ha,
      setOption_setOption_self]
  · simp only [Bool.not_eq_true] at ha
    simp [curlHelperSetOptBool, engineCall, curl_easy_setopt, ha]

/-- C10: when the first engine call of curlHelperSetOptWriteFunc (enabling
header-inclusion) fails, the session state is entirely unchanged: in
particular the write context and write function hold their previous values,
and the returned code is non-success. -/
theorem C10_write_frame_on_failure (E : Engine) (w : World) (u f : Option Nat)
    (h : (curl_easy_setopt E w.st .CURLOPT_HEADER (.long 1)).1 ≠ CURLE_OK) :
    (curlHelperSetOptWriteFunc E w u f).2.st = w.st
  ∧ getOption (curlHelperSetOptWriteFunc E w u f).2.st .CURLOPT_WRITEDATA
      = getOption w.st .CURLOPT_WRITEDATA
  ∧ getOption (curlHelperSetOptWriteFunc E w u f).2.st .CURLOPT_WRITEFUNCTION
      = getOption w.st .CURLOPT_WRITEFUNCTION
  ∧ (curlHelperSetOptWriteFunc E w u f).1 ≠ CURLE_OK := by
  have ha : E.accept .CURLOPT_HEADER (.long 1) = false := by
    by_cases hb : E.accept .CURLOPT_HEADER (.long 1)
    · exact absurd (by simp [curl_easy_setopt, hb]) h
    · simpa using hb
  have hne : E.errCode .CURLOPT_HEADER (.long 1) ≠ 0 := E.errCode_ne_ok _ _ ha
  refine ⟨?_, ?_, ?_, ?_⟩ <;>
    simp [curlHelperSetOptWriteFunc, engineCall, curl_easy_setopt, ha, CURLE_OK, hne]

/-- C10 witness: an engine that rejects only the header-inclusion option
leaves a pre-populated session untouched. -/
theorem C10_witness :
    (curl_easy_setopt (rejectOnly .CURLOPT_HEADER)
        (⟨[(.CURLOPT_WRITEDATA, .dataPtr (some 8))], []⟩ : World).st
        .CURLOPT_HEADER (.long 1)).1 ≠ CURLE_OK
  ∧ (curlHelperSetOptWriteFunc (rejectOnly .CURLOPT_HEADER)
        ⟨[(.CURLOPT_WRITEDATA, .dataPtr (some 8))], []⟩ (some 1) (some 2)).2.st
      = [(.CURLOPT_WRITEDATA, .dataPtr (some 8))] :=
  ⟨by decide,
   (C10_write_frame_on_failure (rejectOnly .CURLOPT_HEADER)
      ⟨[(.CURLOPT_WRITEDATA, .dataPtr (some 8))], []⟩ (some 1) (some 2) (by decide)).1⟩

end KituraNet
